import Mathlib

/-!
# Verification of `gwpy/types/array2d.py` (`Array2D`)

Shallow embedding of the `Array2D` class: a two-dimensional labeled array
whose y-axis is described either by an `(y0, dy)` origin/step pair or by an
explicit cached index, with lazy materialization and cache invalidation.

Modelling conventions:
* Numeric values are rationals (`ℚ`); the Python code works with floats but
  every claim concerns exact arithmetic identities, so `ℚ` is faithful.
* Astropy units are modelled as plain dimension labels (`String`), with the
  dimensionless unit as `""`.  Conversion between units (`Quantity.to`)
  succeeds exactly when the labels agree; astropy additionally rescales
  between commensurable units, but the claims only involve incommensurable
  or identical units, for which this model is exact.
* Python exceptions are modelled by `Except Err`; `Err` records the
  exception class and message where the source sets one.
* Property getters that cache their result (`y0`, `dy`, `yindex`) are
  modelled as state transformers returning the value and the updated object,
  mirroring the `self._y0 = ...` writes in the source.
-/

/-- Python exceptions raised (or propagated) by the embedded code. -/
inductive Err where
  | attributeError (msg : String)
  | indexError (msg : String)
  | unitError
  deriving DecidableEq, Repr

/-- An astropy `Quantity` scalar: a rational value tagged with a unit label. -/
structure Quantity where
  value : ℚ
  unit : String
  deriving DecidableEq, Repr

/-- `Quantity.to`: unit conversion.  In the label model conversion succeeds
exactly when the units agree (astropy raises `UnitConversionError` on
incommensurable units). -/
def Quantity.to (q : Quantity) (u : String) : Except Err Quantity :=
  if q.unit = u then Except.ok ⟨q.value, u⟩ else Except.error Err.unitError

/-- Astropy addition `a + b`: requires commensurable units. -/
def qadd (a b : Quantity) : Except Err Quantity :=
  if a.unit = b.unit then Except.ok ⟨a.value + b.value, a.unit⟩
  else Except.error Err.unitError

/-- Astropy subtraction `a - b`: requires commensurable units. -/
def qsub (a b : Quantity) : Except Err Quantity :=
  if a.unit = b.unit then Except.ok ⟨a.value - b.value, a.unit⟩
  else Except.error Err.unitError

/-- `n * q` for a bare integer `n`: keeps the unit. -/
def qsmul (n : Nat) (q : Quantity) : Quantity :=
  ⟨(n : ℚ) * q.value, q.unit⟩

/-- `q * n` for a bare integer `n`: keeps the unit. -/
def qmulNat (q : Quantity) (n : Nat) : Quantity :=
  ⟨q.value * (n : ℚ), q.unit⟩

/-- A Python numeric argument: either a bare (unit-free) number or a
unit-tagged `Quantity`. -/
inductive PyNum where
  | bare (q : ℚ)
  | quant (q : Quantity)
  deriving DecidableEq, Repr

/-- `Quantity(v, u)`: a bare number is tagged with `u`; a `Quantity` is
converted to `u`. -/
def pyQuantity (v : PyNum) (u : String) : Except Err Quantity :=
  match v with
  | .bare q => Except.ok ⟨q, u⟩
  | .quant q => q.to u

/-- Python list slicing `xs[a:b:c]` for non-negative `start`/`stop` and a
positive step (the only slice forms the claims exercise). -/
def sliceList (xs : List α) (start stop step : Option Nat) : List α :=
  let n := xs.length
  let a := start.getD 0
  let b := min (stop.getD n) n
  let k := step.getD 1
  ((List.range n).filter (fun i => a ≤ i && i < b && (i - a) % k == 0)).filterMap
    (fun i => xs.get? i)

/-- Truthiness of an optional integer slice component (`if y.start:` in the
source treats both `None` and `0` as false). -/
def truthy : Option Nat → Bool
  | none => false
  | some k => k ≠ 0

/-- Modelled from the spec: the repository's `Index` class (`index.py`, not
under `src/`) wraps an ordered sequence of coordinates with a unit, together
with a `regular` flag that is true iff the consecutive differences are
constant (§3 of the spec). -/
structure Index where
  values : List ℚ
  unit : String
  deriving DecidableEq, Repr

/-- Auxiliary check: every consecutive difference in the list equals `d`. -/
def regularAux : ℚ → List ℚ → Bool
  | _, [] => true
  | _, [_] => true
  | d, x :: y :: rest => (y - x == d) && regularAux d (y :: rest)

/-- Modelled from the spec: `Index.regular` is true iff consecutive
differences are constant (vacuously true for fewer than three elements). -/
def Index.regular (i : Index) : Bool :=
  match i.values with
  | [] => true
  | [_] => true
  | x :: y :: rest => regularAux (y - x) (x :: y :: rest)

/-- `index[k]` for `k ≥ 0`: a unit-tagged scalar, `IndexError` out of range. -/
def Index.get (i : Index) (k : Nat) : Except Err Quantity :=
  match i.values.get? k with
  | some v => Except.ok ⟨v, i.unit⟩
  | none => Except.error (Err.indexError "index out of bounds")

/-- `index.value[-k]` for `k ≥ 1` (negative Python indexing). -/
def Index.negGet (i : Index) (k : Nat) : Except Err Quantity :=
  if 1 ≤ k ∧ k ≤ i.values.length then i.get (i.values.length - k)
  else Except.error (Err.indexError "index out of bounds")

/-- `index[a:b:c]`: slices the coordinate list, keeping the unit. -/
def Index.slice (i : Index) (a b c : Option Nat) : Index :=
  ⟨sliceList i.values a b c, i.unit⟩

/-- An index argument to a setter / the constructor: either an `Index` (or
unit-carrying array) or a bare list of numbers (no `.unit` attribute). -/
inductive IndexInput where
  | idx (i : Index)
  | bare (l : List ℚ)
  deriving DecidableEq, Repr

/-- The `Array2D` state: a dense 2D buffer (list of rows), the value unit,
and the lazily cached per-axis metadata fields `_x0`/`_dx`/`_xindex` and
`_y0`/`_dy`/`_yindex` (a `none` field models the attribute being absent). -/
structure Array2D where
  data : List (List ℚ)
  unit : String
  x0q : Option Quantity
  dxq : Option Quantity
  xindexq : Option Index
  y0q : Option Quantity
  dyq : Option Quantity
  yindexq : Option Index
  deriving DecidableEq, Repr

namespace Array2D

/-- `self.shape[0]`: number of rows (extent of the x-axis). -/
def shape0 (m : Array2D) : Nat := m.data.length

/-- `self.shape[1]`: number of columns (extent of the y-axis). -/
def shape1 (m : Array2D) : Nat := (m.data.headD []).length

/-- `Array2D.yunit`: the unit of `_dy` if set, else of `_y0`, else the
default (dimensionless) unit. -/
def yunit (m : Array2D) : String :=
  match m.dyq with
  | some d => d.unit
  | none =>
    match m.y0q with
    | some q => q.unit
    | none => ""

/-- `Array2D.y0` getter: returns `_y0`, materializing and caching the
default `Quantity(0, self.yunit)` if absent. -/
def y0Get (m : Array2D) : Quantity × Array2D :=
  match m.y0q with
  | some q => (q, m)
  | none =>
    let q : Quantity := ⟨0, m.yunit⟩
    (q, { m with y0q := some q })

/-- `Array2D.dy` getter: returns `_dy` if cached; otherwise, with no cached
`_yindex`, caches the default `Quantity(1, self.yunit)`; with a cached
regular index, caches `yindex[1] - yindex[0]`; with a cached irregular
index, raises `AttributeError` naming the y-axis. -/
def dyGet (m : Array2D) : Except Err (Quantity × Array2D) :=
  match m.dyq with
  | some q => Except.ok (q, m)
  | none =>
    match m.yindexq with
    | none =>
      let q : Quantity := ⟨1, m.yunit⟩
      Except.ok (q, { m with dyq := some q })
    | some idx =>
      if idx.regular then do
        let a ← idx.get 1
        let b ← idx.get 0
        let d ← qsub a b
        Except.ok (d, { m with dyq := some d })
      else
        Except.error (Err.attributeError
          "This series has an irregular y-axis index, so 'dy' is not well defined")

/-- `Array2D.y0` setter: `None` deletes `_y0`; a bare number is tagged with
the current `yunit`; the cached `_yindex` is invalidated unless the new
value equals the previously cached `_y0` (comparison of incommensurable
units raises). -/
def y0Set (m : Array2D) (v : Option PyNum) : Except Err Array2D :=
  match v with
  | none => Except.ok { m with y0q := none }
  | some pv =>
    let value : Quantity :=
      match pv with
      | .bare q => ⟨q, m.yunit⟩
      | .quant q => q
    match m.y0q with
    | none => Except.ok { m with yindexq := none, y0q := some value }
    | some y0 =>
      if value.unit = y0.unit then
        if value.value = y0.value then Except.ok { m with y0q := some value }
        else Except.ok { m with yindexq := none, y0q := some value }
      else Except.error Err.unitError

/-- `Array2D.dy` setter: `None` deletes `_dy`; a bare number is wrapped as a
dimensionless `Quantity` and **converted** to the current `yunit`
(`Quantity(value).to(self.yunit)`); invalidation mirrors the `y0` setter. -/
def dySet (m : Array2D) (v : Option PyNum) : Except Err Array2D :=
  match v with
  | none => Except.ok { m with dyq := none }
  | some pv => do
    let value : Quantity ←
      match pv with
      | .bare q => Quantity.to ⟨q, ""⟩ m.yunit
      | .quant q => Except.ok q
    match m.dyq with
    | none => Except.ok { m with yindexq := none, dyq := some value }
    | some dy =>
      if value.unit = dy.unit then
        if value.value = dy.value then Except.ok { m with dyq := some value }
        else Except.ok { m with yindexq := none, dyq := some value }
      else Except.error Err.unitError

/-- `Array2D.yindex` getter: returns the cached `_yindex`, or materializes
and caches `Index(self.y0 + arange(self.shape[1]) * self.dy)`. -/
def yindexGet (m : Array2D) : Except Err (Index × Array2D) :=
  match m.yindexq with
  | some idx => Except.ok (idx, m)
  | none => do
    let (y0, m1) := m.y0Get
    let (dy, m2) ← m1.dyGet
    if y0.unit = dy.unit then
      let idx : Index :=
        ⟨(List.range m2.shape1).map (fun i : Nat => y0.value + (i : ℚ) * dy.value),
          y0.unit⟩
      Except.ok (idx, { m2 with yindexq := some idx })
    else Except.error Err.unitError

/-- `Array2D.yindex` setter: `None` deletes the cache; otherwise wraps the
input as an `Index` (a bare sequence gets the class default unit), sets
`y0 = index[0]`, sets `dy = index[1] - index[0]` when the index is regular
(deleting `dy` otherwise), and caches the index.  No length check against
the buffer's extent is performed. -/
def yindexSet (m : Array2D) (v : Option IndexInput) : Except Err Array2D :=
  match v with
  | none => Except.ok { m with yindexq := none }
  | some inp => do
    let index : Index :=
      match inp with
      | .idx i => i
      | .bare l => ⟨l, ""⟩
    let i0 ← index.get 0
    let m1 ← m.y0Set (some (.quant i0))
    let m2 ←
      if index.regular then do
        let a ← index.get 1
        let b ← index.get 0
        let d ← qsub a b
        m1.dySet (some (.quant d))
      else Except.ok { m1 with dyq := none }
    Except.ok { m2 with yindexq := some index }

/-- `Array2D.yspan`: with no cached index, `[y0, y0 + shape1 * dy)` after
converting both to `yunit`; with a cached index, the source computes the
last spacing `value[-1] - value[-2]` into an unused local and then evaluates
`self.dy` (which raises for an irregular cached index) for the upper bound
`value[-1] + self.dy.value`. -/
def yspan (m : Array2D) : Except Err ((ℚ × ℚ) × Array2D) :=
  match m.yindexq with
  | none => do
    let (y0, m1) := m.y0Get
    let y0c ← y0.to m1.yunit
    let (dy, m2) ← m1.dyGet
    let dyc ← dy.to m2.yunit
    Except.ok ((y0c.value, y0c.value + (m2.shape1 : ℚ) * dyc.value), m2)
  | some idx => do
    let a ← idx.negGet 1
    let b ← idx.negGet 2
    let _unusedLocalDy := a.value - b.value
    let v0 ← idx.get 0
    let vl ← idx.negGet 1
    let (dy, m2) ← m.dyGet
    Except.ok ((v0.value, vl.value + dy.value), m2)

end Array2D

namespace Array2D

/-- Modelled from the spec: `Series.xunit` (series.py, not under `src/`),
the x-axis mirror of `Array2D.yunit` — the axis model is symmetric per §3
of the spec. -/
def xunit (m : Array2D) : String :=
  match m.dxq with
  | some d => d.unit
  | none =>
    match m.x0q with
    | some q => q.unit
    | none => ""

/-- Modelled from the spec: `Series.x0` getter, symmetric to `y0Get`. -/
def x0Get (m : Array2D) : Quantity × Array2D :=
  match m.x0q with
  | some q => (q, m)
  | none =>
    let q : Quantity := ⟨0, m.xunit⟩
    (q, { m with x0q := some q })

/-- Modelled from the spec: `Series.dx` getter, symmetric to `dyGet`
(fails with an irregular-axis error naming the x-axis). -/
def dxGet (m : Array2D) : Except Err (Quantity × Array2D) :=
  match m.dxq with
  | some q => Except.ok (q, m)
  | none =>
    match m.xindexq with
    | none =>
      let q : Quantity := ⟨1, m.xunit⟩
      Except.ok (q, { m with dxq := some q })
    | some idx =>
      if idx.regular then do
        let a ← idx.get 1
        let b ← idx.get 0
        let d ← qsub a b
        Except.ok (d, { m with dxq := some d })
      else
        Except.error (Err.attributeError
          "This series has an irregular x-axis index, so 'dx' is not well defined")

/-- Modelled from the spec: `Series.x0` setter, symmetric to `y0Set`. -/
def x0Set (m : Array2D) (v : Option PyNum) : Except Err Array2D :=
  match v with
  | none => Except.ok { m with x0q := none }
  | some pv =>
    let value : Quantity :=
      match pv with
      | .bare q => ⟨q, m.xunit⟩
      | .quant q => q
    match m.x0q with
    | none => Except.ok { m with xindexq := none, x0q := some value }
    | some x0 =>
      if value.unit = x0.unit then
        if value.value = x0.value then Except.ok { m with x0q := some value }
        else Except.ok { m with xindexq := none, x0q := some value }
      else Except.error Err.unitError

/-- Modelled from the spec: `Series.dx` setter, symmetric to `dySet`. -/
def dxSet (m : Array2D) (v : Option PyNum) : Except Err Array2D :=
  match v with
  | none => Except.ok { m with dxq := none }
  | some pv => do
    let value : Quantity ←
      match pv with
      | .bare q => Quantity.to ⟨q, ""⟩ m.xunit
      | .quant q => Except.ok q
    match m.dxq with
    | none => Except.ok { m with xindexq := none, dxq := some value }
    | some dx =>
      if value.unit = dx.unit then
        if value.value = dx.value then Except.ok { m with dxq := some value }
        else Except.ok { m with xindexq := none, dxq := some value }
      else Except.error Err.unitError

/-- Modelled from the spec: `Series.xindex` getter, symmetric to
`yindexGet`, materializing over the row extent `shape[0]`. -/
def xindexGet (m : Array2D) : Except Err (Index × Array2D) :=
  match m.xindexq with
  | some idx => Except.ok (idx, m)
  | none => do
    let (x0, m1) := m.x0Get
    let (dx, m2) ← m1.dxGet
    if x0.unit = dx.unit then
      let idx : Index :=
        ⟨(List.range m2.shape0).map (fun i : Nat => x0.value + (i : ℚ) * dx.value),
          x0.unit⟩
      Except.ok (idx, { m2 with xindexq := some idx })
    else Except.error Err.unitError

/-- Modelled from the spec: `Series.xindex` setter, symmetric to
`yindexSet`. -/
def xindexSet (m : Array2D) (v : Option IndexInput) : Except Err Array2D :=
  match v with
  | none => Except.ok { m with xindexq := none }
  | some inp => do
    let index : Index :=
      match inp with
      | .idx i => i
      | .bare l => ⟨l, ""⟩
    let i0 ← index.get 0
    let m1 ← m.x0Set (some (.quant i0))
    let m2 ←
      if index.regular then do
        let a ← index.get 1
        let b ← index.get 0
        let d ← qsub a b
        m1.dxSet (some (.quant d))
      else Except.ok { m1 with dxq := none }
    Except.ok { m2 with xindexq := some index }

end Array2D

/-- Which class attribute a 1D/2D slice result was `view`ed as.  In this
file `_rowclass` and `_columnclass` are both `Series` (lines 100-101 of the
source); the tag records which attribute the `view` call used, which is the
distinction subclasses rely on. -/
inductive ViewTag where
  | series
  | rowclass
  | columnclass
  deriving DecidableEq, Repr

/-- A 1D labeled vector (a `Series` result of slicing): data, value unit,
its own single-axis metadata slots, and the view tag. -/
structure Vec where
  data : List ℚ
  unit : String
  x0q : Option Quantity
  dxq : Option Quantity
  xindexq : Option Index
  cls : ViewTag
  deriving DecidableEq, Repr

namespace Vec

/-- Modelled from the spec: the vector's axis unit, symmetric resolution. -/
def xunit (v : Vec) : String :=
  match v.dxq with
  | some d => d.unit
  | none =>
    match v.x0q with
    | some q => q.unit
    | none => ""

/-- Modelled from the spec: `Series.x0` getter on the vector. -/
def x0Get (v : Vec) : Quantity × Vec :=
  match v.x0q with
  | some q => (q, v)
  | none =>
    let q : Quantity := ⟨0, v.xunit⟩
    (q, { v with x0q := some q })

/-- Modelled from the spec: `Series.dx` getter on the vector. -/
def dxGet (v : Vec) : Except Err (Quantity × Vec) :=
  match v.dxq with
  | some q => Except.ok (q, v)
  | none =>
    match v.xindexq with
    | none =>
      let q : Quantity := ⟨1, v.xunit⟩
      Except.ok (q, { v with dxq := some q })
    | some idx =>
      if idx.regular then do
        let a ← idx.get 1
        let b ← idx.get 0
        let d ← qsub a b
        Except.ok (d, { v with dxq := some d })
      else
        Except.error (Err.attributeError
          "This series has an irregular x-axis index, so 'dx' is not well defined")

/-- Modelled from the spec: `Series.x0` setter on the vector. -/
def x0Set (v : Vec) (pv? : Option PyNum) : Except Err Vec :=
  match pv? with
  | none => Except.ok { v with x0q := none }
  | some pv =>
    let value : Quantity :=
      match pv with
      | .bare q => ⟨q, v.xunit⟩
      | .quant q => q
    match v.x0q with
    | none => Except.ok { v with xindexq := none, x0q := some value }
    | some x0 =>
      if value.unit = x0.unit then
        if value.value = x0.value then Except.ok { v with x0q := some value }
        else Except.ok { v with xindexq := none, x0q := some value }
      else Except.error Err.unitError

/-- Modelled from the spec: `Series.dx` setter on the vector. -/
def dxSet (v : Vec) (pv? : Option PyNum) : Except Err Vec :=
  match pv? with
  | none => Except.ok { v with dxq := none }
  | some pv => do
    let value : Quantity ←
      match pv with
      | .bare q => Quantity.to ⟨q, ""⟩ v.xunit
      | .quant q => Except.ok q
    match v.dxq with
    | none => Except.ok { v with xindexq := none, dxq := some value }
    | some dx =>
      if value.unit = dx.unit then
        if value.value = dx.value then Except.ok { v with dxq := some value }
        else Except.ok { v with xindexq := none, dxq := some value }
      else Except.error Err.unitError

/-- Modelled from the spec: `Series.xindex` setter on the vector. -/
def xindexSet (v : Vec) (inp? : Option IndexInput) : Except Err Vec :=
  match inp? with
  | none => Except.ok { v with xindexq := none }
  | some inp => do
    let index : Index :=
      match inp with
      | .idx i => i
      | .bare l => ⟨l, ""⟩
    let i0 ← index.get 0
    let v1 ← v.x0Set (some (.quant i0))
    let v2 ←
      if index.regular then do
        let a ← index.get 1
        let b ← index.get 0
        let d ← qsub a b
        v1.dxSet (some (.quant d))
      else Except.ok { v1 with dxq := none }
    Except.ok { v2 with xindexq := some index }

end Vec

/-- A component of an index expression: a Python `int`, a Python `float`, a
numpy integer scalar (`numpy.int64` etc., which is *not* a Python
`int`/`float`), or a slice with optional start/stop/step. -/
inductive PyIdx where
  | pyint (i : Nat)
  | pyfloat (q : ℚ)
  | npint (i : Nat)
  | pyslice (start stop step : Option Nat)
  deriving DecidableEq, Repr

/-- `isinstance(x, (float, int))` — the source's condition choosing the
column-class view (`Array2D.__getitem__`, line 143).  True for Python
`int` and `float`, false for numpy scalar types and slices. -/
def PyIdx.isFloatOrInt : PyIdx → Bool
  | .pyint _ => true
  | .pyfloat _ => true
  | _ => false

/-- Resolve a scalar component to a buffer position.  A float index is
accepted by the numpy of the source's era only when integral and
non-negative (deprecated behaviour); a slice never reaches this. -/
def scalarIdx : PyIdx → Except Err Nat
  | .pyint i => Except.ok i
  | .npint i => Except.ok i
  | .pyfloat q =>
    if q.den = 1 ∧ 0 ≤ q.num then Except.ok q.num.toNat
    else Except.error (Err.indexError "invalid float index")
  | .pyslice _ _ _ => Except.error (Err.indexError "slice is not a scalar")

/-- `xs[i]` with numpy's `IndexError` on out-of-bounds access. -/
def nthElem (xs : List α) (i : Nat) : Except Err α :=
  match xs.get? i with
  | some v => Except.ok v
  | none => Except.error (Err.indexError "index out of bounds")

/-- An index expression passed to `__getitem__`: a single component or a
2-tuple (`x, y = item`). -/
inductive Item where
  | single (x : PyIdx)
  | tuple (x y : PyIdx)
  deriving DecidableEq, Repr

/-- The object returned by the `Series`-level slicing step, before
`Array2D.__getitem__` re-views it: rank 0, 1 or 2. -/
inductive NewObj where
  | scalar (v : ℚ)
  | vec (v : Vec)
  | mat (m : Array2D)
  deriving DecidableEq, Repr

/-- The rank-polymorphic result of `Array2D.__getitem__`. -/
inductive GetResult where
  | scalar (q : Quantity)
  | vector (v : Vec)
  | matrix (m : Array2D)
  deriving DecidableEq, Repr

namespace Array2D

/-- Modelled from the spec: the row-axis range rule (§4.3 steps 3-4) applied
by the `Series` layer to a 2D result whose rows were sliced by `[a:b:c]`:
with no cached x index, `x0 += start*dx` when start is truthy and
`dx *= step` when step is truthy; with a cached index, re-assign the sliced
index through the setter. -/
def applyXRangeM (mm : Array2D) (a b c : Option Nat) : Except Err Array2D :=
  match mm.xindexq with
  | none => do
    let mm1 ←
      if truthy a then do
        let (x0v, t) := mm.x0Get
        let (dxv, t2) ← t.dxGet
        let q ← qadd x0v (qsmul (a.getD 0) dxv)
        t2.x0Set (some (.quant q))
      else Except.ok mm
    if truthy c then do
      let (dxv, t) ← mm1.dxGet
      t.dxSet (some (.quant (qmulNat dxv (c.getD 1))))
    else Except.ok mm1
  | some xi => mm.xindexSet (some (.idx (xi.slice a b c)))

/-- Modelled from the spec: the same row-axis range rule applied to a 1D
result (row axis survives a scalar column index). -/
def applyXRangeV (v : Vec) (a b c : Option Nat) : Except Err Vec :=
  match v.xindexq with
  | none => do
    let v1 ←
      if truthy a then do
        let (x0v, t) := v.x0Get
        let (dxv, t2) ← t.dxGet
        let q ← qadd x0v (qsmul (a.getD 0) dxv)
        t2.x0Set (some (.quant q))
      else Except.ok v
    if truthy c then do
      let (dxv, t) ← v1.dxGet
      t.dxSet (some (.quant (qmulNat dxv (c.getD 1))))
    else Except.ok v1
  | some xi => v.xindexSet (some (.idx (xi.slice a b c)))

/-- Modelled from the spec: `Series.__getitem__` (`series.py`, not under
`src/`) — "Series.__getitem__ has already done x slice" (source line 153).
It slices the buffer by the row component, then the column component (§4.3
step 1), and applies the row-axis range rule when the row component is a
range; a scalar row component leaves the result's x-axis descriptor equal to
the source's (the cross-axis reassignment is `Array2D.__getitem__`'s own
job).  The result has rank 0, 1 or 2 according to the collapsed axes. -/
def seriesGetitem (m : Array2D) (x : PyIdx) (y? : Option PyIdx) :
    Except Err NewObj :=
  match x with
  | .pyslice a b c =>
    match y? with
    | none =>
      (applyXRangeM { m with data := sliceList m.data a b c } a b c).map .mat
    | some (.pyslice a2 b2 c2) =>
      let rows := (sliceList m.data a b c).map (fun r => sliceList r a2 b2 c2)
      (applyXRangeM { m with data := rows } a b c).map .mat
    | some yc => do
      let cIdx ← scalarIdx yc
      let vals ← (sliceList m.data a b c).mapM (fun r => nthElem r cIdx)
      let v : Vec := ⟨vals, m.unit, m.x0q, m.dxq, m.xindexq, .series⟩
      (applyXRangeV v a b c).map .vec
  | _ => do
    let r ← scalarIdx x
    let row ← nthElem m.data r
    match y? with
    | none =>
      Except.ok (.vec ⟨row, m.unit, m.x0q, m.dxq, m.xindexq, .series⟩)
    | some (.pyslice a2 b2 c2) =>
      Except.ok (.vec ⟨sliceList row a2 b2 c2, m.unit, m.x0q, m.dxq,
        m.xindexq, .series⟩)
    | some yc => do
      let cIdx ← scalarIdx yc
      let el ← nthElem row cIdx
      Except.ok (.scalar el)

/-- `Array2D.__getitem__` (source lines 130-174).  After the `Series`-level
slice: a rank-0 result becomes `Quantity(new, self.unit)`; a rank-1 result
is viewed as `_columnclass` with `new.dx = self.dy; new.x0 = self.y0` when
the row component is a Python `float`/`int`, else viewed as `_rowclass`;
then, if the column component is a slice, the rank-1 branch adjusts the
result from `self.x0`/`self.dx` (or assigns `self.xindex[y]`), and the
rank-2 branch adjusts the y-axis from `new.y0`/`new.dy` (or assigns
`self.yindex[y]`).  Returns the result together with `self` (whose lazy
caches the getters may have filled). -/
def getitem (m : Array2D) (item : Item) : Except Err (GetResult × Array2D) := do
  let (x, y?) :=
    match item with
    | .single x => (x, none)
    | .tuple x y => (x, some y)
  let new ← m.seriesGetitem x y?
  match new with
  | .scalar v => Except.ok (.scalar ⟨v, m.unit⟩, m)
  | .vec v0 => do
    let (v1, m1) ←
      if x.isFloatOrInt then do
        let v := { v0 with cls := ViewTag.columnclass }
        let (dyv, ma) ← m.dyGet
        let v ← v.dxSet (some (.quant dyv))
        let (y0v, mb) := ma.y0Get
        let v ← v.x0Set (some (.quant y0v))
        Except.ok (v, mb)
      else Except.ok ({ v0 with cls := ViewTag.rowclass }, m)
    match y? with
    | some (.pyslice a b c) =>
      match m1.xindexq with
      | none => do
        let (v2, m2) ←
          if truthy a then do
            let (x0v, t) := m1.x0Get
            let (dxv, t2) ← t.dxGet
            let q ← qadd x0v (qsmul (a.getD 0) dxv)
            let v' ← v1.x0Set (some (.quant q))
            Except.ok (v', t2)
          else Except.ok (v1, m1)
        if truthy c then do
          let (dxv, t) ← m2.dxGet
          let v3 ← v2.dxSet (some (.quant (qmulNat dxv (c.getD 1))))
          Except.ok (GetResult.vector v3, t)
        else Except.ok (GetResult.vector v2, m2)
      | some _ => do
        let (xi, m2) ← m1.xindexGet
        let v2 ← v1.xindexSet (some (.idx (xi.slice a b c)))
        Except.ok (GetResult.vector v2, m2)
    | _ => Except.ok (GetResult.vector v1, m1)
  | .mat mm => do
    match y? with
    | some (.pyslice a b c) =>
      match m.yindexq with
      | none => do
        let mm1 ←
          if truthy a then do
            let (y0v, t) := mm.y0Get
            let (dyv, t2) ← t.dyGet
            let q ← qadd y0v (qsmul (a.getD 0) dyv)
            t2.y0Set (some (.quant q))
          else Except.ok mm
        let mm2 ←
          if truthy c then do
            let (dyv, t) ← mm1.dyGet
            t.dySet (some (.quant (qmulNat dyv (c.getD 1))))
          else Except.ok mm1
        Except.ok (GetResult.matrix mm2, m)
      | some _ => do
        let (yi, m2) ← m.yindexGet
        let mm2 ← mm.yindexSet (some (.idx (yi.slice a b c)))
        Except.ok (GetResult.matrix mm2, m2)
    | _ => Except.ok (GetResult.matrix mm, m)

/-- `Array2D.__new__` (source lines 104-127).  The `Series`-level part
(x-axis normalization) is modelled from the spec, symmetric to the y-axis
part; the y-axis part infers `yunit` from `dy` then `y0` (else the class
default), then applies `dy`, `y0` and `yindex` through the setters in that
order — so a supplied `yindex` is applied last. -/
def new (data : List (List ℚ)) (unit : String)
    (x0 dx : Option PyNum) (xindex : Option IndexInput)
    (y0 dy : Option PyNum) (yindex : Option IndexInput) :
    Except Err Array2D := do
  let m0 : Array2D := ⟨data, unit, none, none, none, none, none, none⟩
  let xu : String :=
    match dx with
    | some (.quant q) => q.unit
    | _ =>
      match x0 with
      | some (.quant q) => q.unit
      | _ => ""
  let m1 ←
    match dx with
    | none => Except.ok m0
    | some v => do
      let q ← pyQuantity v xu
      m0.dxSet (some (.quant q))
  let m2 ←
    match x0 with
    | none => Except.ok m1
    | some v => do
      let q ← pyQuantity v xu
      m1.x0Set (some (.quant q))
  let m3 ←
    match xindex with
    | none => Except.ok m2
    | some ii => m2.xindexSet (some ii)
  let yu : String :=
    match dy with
    | some (.quant q) => q.unit
    | _ =>
      match y0 with
      | some (.quant q) => q.unit
      | _ => ""
  let m4 ←
    match dy with
    | none => Except.ok m3
    | some v => do
      let q ← pyQuantity v yu
      m3.dySet (some (.quant q))
  let m5 ←
    match y0 with
    | none => Except.ok m4
    | some v => do
      let q ← pyQuantity v yu
      m4.y0Set (some (.quant q))
  let m6 ←
    match yindex with
    | none => Except.ok m5
    | some ii => m5.yindexSet (some ii)
  Except.ok m6

/-- `Array2D.value_at` (source lines 346-373): converts each coordinate to
the corresponding materialized index's unit, finds the first exact equality
match on each axis (`IndexError` whose args the source *replaces with the
unformatted literal* `"Value %r not found in array xindex"` — the `%`
substitution is missing — when no match exists), and returns
`self[idx, idy]`. -/
def value_at (m : Array2D) (x y : PyNum) : Except Err (Quantity × Array2D) := do
  let (xidx, m1) ← m.xindexGet
  let xq : Quantity ←
    match x with
    | .bare q => Except.ok ⟨q, xidx.unit⟩
    | .quant q => q.to xidx.unit
  let (yidx, m2) ← m1.yindexGet
  let yq : Quantity ←
    match y with
    | .bare q => Except.ok ⟨q, yidx.unit⟩
    | .quant q => q.to yidx.unit
  let idx ←
    match xidx.values.findIdx? (fun v => v == xq.value) with
    | some i => Except.ok i
    | none => Except.error (Err.indexError "Value %r not found in array xindex")
  let idy ←
    match yidx.values.findIdx? (fun v => v == yq.value) with
    | some i => Except.ok i
    | none => Except.error (Err.indexError "Value %r not found in array yindex")
  let r ← m2.getitem (.tuple (.npint idx) (.npint idy))
  match r with
  | (.scalar q, m3) => Except.ok (q, m3)
  | _ => Except.error (Err.indexError "unreachable: scalar indices gave a non-scalar")

end Array2D

/-! ## Concrete instances used by the claim theorems -/

/-- A 5×10 zero matrix with regular row axis `x0 = 0, dx = 2` and regular
column axis `y0 = 10, dy = 5` (the spec's §8 slicing example). -/
def exM : Array2D :=
  ⟨List.replicate 5 (List.replicate 10 0), "", some ⟨0, ""⟩, some ⟨2, ""⟩, none,
    some ⟨10, ""⟩, some ⟨5, ""⟩, none⟩

/-- `exM` with a cached (regular) x index `[0, 2, 4, 6, 8]`. -/
def exMxi : Array2D :=
  ⟨List.replicate 5 (List.replicate 10 0), "", some ⟨0, ""⟩, some ⟨2, ""⟩,
    some ⟨[0, 2, 4, 6, 8], ""⟩, some ⟨10, ""⟩, some ⟨5, ""⟩, none⟩

/-- A 3×10 zero matrix with regular column axis `y0 = 0, dy = 1`
(the spec's §8 span example). -/
def exSpan : Array2D :=
  ⟨List.replicate 3 (List.replicate 10 0), "", none, none, none,
    some ⟨0, ""⟩, some ⟨1, ""⟩, none⟩

/-- A 3×3 zero matrix with a cached irregular y index `[0, 1, 3]`. -/
def exIrr : Array2D :=
  ⟨List.replicate 3 (List.replicate 3 0), "", none, none, none,
    none, none, some ⟨[0, 1, 3], ""⟩⟩

/-- A 2×2 zero matrix with no axis metadata set. -/
def exFresh : Array2D :=
  ⟨List.replicate 2 (List.replicate 2 0), "", none, none, none,
    none, none, none⟩

/-- The state of `exFresh` after its y index is set to the irregular
`[0, 1, 3]`. -/
def exFreshIrr : Array2D :=
  ⟨List.replicate 2 (List.replicate 2 0), "", none, none, none,
    some ⟨0, ""⟩, none, some ⟨[0, 1, 3], ""⟩⟩

/-- A 5×4 matrix with entries `10*i + j`, value unit `"V"`, row axis
`x0 = 0, dx = 1` and column axis `y0 = 10, dy = 5` (the spec's §8
`valueAt` example). -/
def exVal : Array2D :=
  ⟨(List.range 5).map (fun i => (List.range 4).map (fun j => (10 * i + j : ℚ))),
    "V", some ⟨0, ""⟩, some ⟨1, ""⟩, none, some ⟨10, ""⟩, some ⟨5, ""⟩, none⟩

/-- A 2×4 zero matrix with regular column axis `y0 = 3 u, dy = 2 u`. -/
def exMat : Array2D :=
  ⟨List.replicate 2 (List.replicate 4 0), "", none, none, none,
    some ⟨3, "u"⟩, some ⟨2, "u"⟩, none⟩

/-- A 2×2 zero matrix whose y-axis unit is `"m"` (set through `y0`). -/
def exMeter : Array2D :=
  ⟨List.replicate 2 (List.replicate 2 0), "", none, none, none,
    some ⟨0, "m"⟩, none, none⟩

/-- The arithmetic progression `a, a+d, ..., a+(n-1)d` in head-recursive
form (proof-friendly counterpart of `arange`-based materialization). -/
def arithProg (a d : ℚ) : Nat → List ℚ
  | 0 => []
  | n + 1 => a :: arithProg (a + d) d n

/-- The index the y-axis materializes from `(origin, step) = (a, d)` over
extent `n`: values `a + i*d` in unit `u` (the `arange`-based expression of
`yindexGet`). -/
def materializedYIndex (a d : ℚ) (u : String) (n : Nat) : Index :=
  ⟨(List.range n).map (fun i : Nat => a + (i : ℚ) * d), u⟩

/-- `exMat` with its regular y index `[3, 5, 7, 9]` cached. -/
def exMatIdx : Array2D :=
  ⟨List.replicate 2 (List.replicate 4 0), "", none, none, none,
    some ⟨3, "u"⟩, some ⟨2, "u"⟩, some ⟨[3, 5, 7, 9], "u"⟩⟩

/-- A 2×1 zero matrix (column extent 1) with regular column axis
`y0 = 3 u, dy = 2 u` and no cached index. -/
def exOne : Array2D :=
  ⟨List.replicate 2 (List.replicate 1 0), "", none, none, none,
    some ⟨3, "u"⟩, some ⟨2, "u"⟩, none⟩

-- Decidable equality for exception-carrying results, so that concrete
-- evaluations of the embedded operations can be checked by `decide`.
deriving instance DecidableEq for Except

/-! ## Claim theorems -/

/-- C1 (code bug): slicing `exM` (row axis `x0 = 0, dx = 2`; column axis
`y0 = 10, dy = 5`) with `[3, 2:8]` does produce a 1D column-class vector,
but its origin is `self.x0 + 2 * self.dx = 4` — the *row* axis's metadata —
instead of the surviving column axis's `y0 + 2 * dy = 20` demanded by the
claim; with a range step (`[3, 2:8:2]`) the resulting step is
`self.dx * 2 = 4` instead of `dy * 2 = 10`; and with a cached x index the
result's explicit index is the sliced *x* index `[4, 6, 8]`, not a sliced
column index.  (`__getitem__`, lines 155-163, reads `self.x0`/`self.dx`/
`self.xindex` where the surviving axis is the y-axis.) -/
theorem C1_rowscalar_colrange_wrong_axis :
    ((exM.getitem (.tuple (.pyint 3) (.pyslice (some 2) (some 8) none))).map
        Prod.fst
      = Except.ok (GetResult.vector
          ⟨List.replicate 6 0, "", some ⟨4, ""⟩, some ⟨5, ""⟩, none,
            .columnclass⟩)
      ∧ (4 : ℚ) = 0 + 2 * 2 ∧ (4 : ℚ) ≠ 10 + 2 * 5)
    ∧ ((exM.getitem (.tuple (.pyint 3) (.pyslice (some 2) (some 8) (some 2)))).map
        Prod.fst
      = Except.ok (GetResult.vector
          ⟨List.replicate 3 0, "", some ⟨4, ""⟩, some ⟨4, ""⟩, none,
            .columnclass⟩)
      ∧ (4 : ℚ) = 2 * 2 ∧ (4 : ℚ) ≠ 5 * 2)
    ∧ ((exMxi.getitem (.tuple (.pyint 3) (.pyslice (some 2) (some 8) none))).map
        Prod.fst
      = Except.ok (GetResult.vector
          ⟨List.replicate 6 0, "", some ⟨4, ""⟩, some ⟨2, ""⟩,
            some ⟨[4, 6, 8], ""⟩, .columnclass⟩)
      ∧ Index.slice ⟨[0, 2, 4, 6, 8], ""⟩ (some 2) (some 8) none
          = ⟨[4, 6, 8], ""⟩) := by
  refine ⟨⟨?_, by norm_num, by norm_num⟩, ⟨?_, by norm_num, by norm_num⟩,
    ?_, ?_⟩ <;>
  norm_num [Array2D.getitem, Array2D.seriesGetitem, scalarIdx, nthElem,
    PyIdx.isFloatOrInt, Array2D.dyGet, Array2D.y0Get, Array2D.x0Get,
    Array2D.dxGet, Array2D.xindexGet, Vec.dxSet, Vec.x0Set, Vec.xindexSet,
    Vec.xunit, Index.regular, regularAux, Index.get, Index.slice, truthy,
    qadd, qsub, qsmul, qmulNat, sliceList, List.range_succ,
    List.filterMap_cons, exM, exMxi, bind, Except.bind, Except.map,
    List.replicate]

/-- C2 (code bug): on a regular axis (`exSpan`: `y0 = 0, dy = 1`, extent 10)
`yspan` returns `[0, 10)`, and after mutating the step to `2` it returns
`[0, 20)` — but on a cached *irregular* index (`exIrr`: `[0, 1, 3]`) the
source evaluates `self.dy` for the upper bound (the last-spacing value it
computes sits in an unused local), so `yspan` raises the irregular-axis
`AttributeError` instead of returning `[0, 3 + 2)`. -/
theorem C2_yspan_irregular_raises :
    (exSpan.yspan).map Prod.fst = Except.ok (0, 10)
    ∧ (do
        let m ← exSpan.dySet (some (.bare 2))
        (m.yspan).map Prod.fst) = Except.ok (0, 20)
    ∧ exIrr.yspan = Except.error (Err.attributeError
        "This series has an irregular y-axis index, so 'dy' is not well defined") := by
  refine ⟨?_, ?_, ?_⟩ <;>
  norm_num [Array2D.yspan, Array2D.y0Get, Array2D.dyGet, Array2D.dySet,
    Array2D.yunit, Array2D.shape1, Quantity.to, Index.negGet, Index.get,
    Index.regular, regularAux, exSpan, exIrr, bind, Except.bind, Except.map,
    List.replicate]

/-- C3 counterexample: setting a length-3 index on the 2×2 matrix `exFresh`
(column extent 2) succeeds and caches the mismatched index — no
`ShapeMismatchError` (nor any error) is raised. -/
theorem C3_mismatched_index_accepted :
    exFresh.yindexSet (some (.idx ⟨[0, 1, 2], ""⟩))
      = Except.ok ⟨List.replicate 2 (List.replicate 2 0), "", none, none, none,
          some ⟨0, ""⟩, some ⟨1, ""⟩, some ⟨[0, 1, 2], ""⟩⟩
    ∧ ([0, 1, 2] : List ℚ).length ≠ exFresh.shape1 := by
  refine ⟨?_, by decide⟩
  norm_num [Array2D.yindexSet, Array2D.y0Set, Array2D.dySet, Array2D.yunit,
    Index.regular, regularAux, Index.get, qsub, exFresh, bind, Except.bind,
    List.replicate]

/-- C4 (code bug): `value_at` on `exVal` (entries `10*i + j`, rows `0..4`
step 1, columns `10, 15, 20, 25`) returns the exact-match element `22 V` at
`(2, 20)`; at the non-grid coordinate `x = 5/2` it raises an `IndexError`
whose message is the *literal, unformatted* string
`"Value %r not found in array xindex"` — the `%` substitution is missing in
the source (`e.args = ("Value %r not found in array xindex",)`), so the
attempted value `5/2` does not appear in the message, contrary to the
claim. -/
theorem C4_value_at_message_lacks_value :
    (exVal.value_at (.bare 2) (.bare 20)).map Prod.fst
      = Except.ok ⟨22, "V"⟩
    ∧ exVal.value_at (.bare (5 / 2)) (.bare 20)
      = Except.error (Err.indexError "Value %r not found in array xindex")
    ∧ exVal.value_at (.bare 2) (.bare 11)
      = Except.error (Err.indexError "Value %r not found in array yindex") := by
  refine ⟨?_, ?_, ?_⟩ <;>
  norm_num [Array2D.value_at, Array2D.xindexGet, Array2D.yindexGet,
    Array2D.x0Get, Array2D.dxGet, Array2D.y0Get, Array2D.dyGet, Array2D.xunit,
    Array2D.yunit, Array2D.shape0, Array2D.shape1, Array2D.getitem,
    Array2D.seriesGetitem, scalarIdx, nthElem, PyIdx.isFloatOrInt,
    List.findIdx?, List.range_succ, List.filterMap_cons, exVal, bind,
    Except.bind, Except.map, List.replicate] <;>
  decide

/-- C9 counterexample: on `exMeter` (y-axis unit `"m"`) setting the *origin*
to the bare number `5` succeeds (it is tagged with the axis unit), but
setting the *step* to the same bare number `5` fails with a unit-conversion
error, because the `dy` setter wraps the bare value as a dimensionless
quantity and converts it (`Quantity(value).to(self.yunit)`): the two setters
are not symmetric. -/
theorem C9_bare_step_not_symmetric :
    exMeter.y0Set (some (.bare 5))
      = Except.ok ⟨List.replicate 2 (List.replicate 2 0), "", none, none, none,
          some ⟨5, "m"⟩, none, none⟩
    ∧ exMeter.dySet (some (.bare 5)) = Except.error Err.unitError := by
  refine ⟨?_, ?_⟩ <;> decide

/-! ## Helper lemmas -/

lemma y0Set_quant_ok_fields (m mr : Array2D) (v : Quantity)
    (h : m.y0Set (some (.quant v)) = Except.ok mr) :
    mr.data = m.data ∧ mr.unit = m.unit ∧ mr.x0q = m.x0q ∧ mr.dxq = m.dxq ∧
    mr.xindexq = m.xindexq ∧ mr.y0q = some v ∧ mr.dyq = m.dyq := by
  rcases hy : m.y0q with _ | q0 <;>
    simp only [Array2D.y0Set, hy] at h
  · injection h with h
    subst h
    simp
  · split_ifs at h <;> injection h with h <;> subst h <;> simp

lemma range_map_arith (a d : ℚ) (n : Nat) :
    (List.range n).map (fun i : Nat => a + (i : ℚ) * d) = arithProg a d n := by
  induction n generalizing a with
  | zero => simp [arithProg]
  | succ k ih =>
    rw [List.range_succ_eq_map]
    simp only [List.map_cons, List.map_map, arithProg]
    congr 1
    · simp
    · rw [← ih (a + d)]
      apply List.map_congr_left
      intro i _
      simp only [Function.comp_apply]
      push_cast
      ring

lemma regularAux_arithProg (d : ℚ) (n : Nat) :
    ∀ a : ℚ, regularAux d (arithProg a d n) = true := by
  induction n with
  | zero => intro a; rfl
  | succ k ih =>
    intro a
    cases k with
    | zero => rfl
    | succ j =>
      have h2 := ih (a + d)
      simp only [arithProg] at h2 ⊢
      simp only [regularAux, h2, add_sub_cancel_left, beq_self_eq_true,
        Bool.and_self, Bool.true_and]

lemma regular_materialized (a d : ℚ) (u : String) (n : Nat) :
    (materializedYIndex a d u n).regular = true := by
  unfold materializedYIndex
  rw [show Index.mk ((List.range n).map (fun i : Nat => a + (i : ℚ) * d)) u
      = Index.mk (arithProg a d n) u by rw [range_map_arith]]
  cases n with
  | zero => rfl
  | succ k =>
    cases k with
    | zero => rfl
    | succ j =>
      simp only [arithProg, Index.regular, add_sub_cancel_left]
      exact regularAux_arithProg d (j + 2) a

lemma yindexGet_materializes (m : Array2D) (a d : ℚ) (u : String)
    (hy0 : m.y0q = some ⟨a, u⟩) (hdy : m.dyq = some ⟨d, u⟩)
    (hyi : m.yindexq = none) :
    m.yindexGet = Except.ok (materializedYIndex a d u m.shape1,
      { m with yindexq := some (materializedYIndex a d u m.shape1) }) := by
  simp only [Array2D.yindexGet, hyi, Array2D.y0Get, hy0, Array2D.dyGet, hdy,
    bind, Except.bind, materializedYIndex]
  simp

lemma mat_get0 (a d : ℚ) (u : String) (n : Nat) (h2 : 2 ≤ n) :
    (materializedYIndex a d u n).get 0 = Except.ok ⟨a, u⟩ := by
  obtain ⟨k, rfl⟩ : ∃ k, n = k + 2 := ⟨n - 2, by omega⟩
  simp [materializedYIndex, Index.get, List.range_succ_eq_map]

lemma mat_get1 (a d : ℚ) (u : String) (n : Nat) (h2 : 2 ≤ n) :
    (materializedYIndex a d u n).get 1 = Except.ok ⟨a + d, u⟩ := by
  obtain ⟨k, rfl⟩ : ∃ k, n = k + 2 := ⟨n - 2, by omega⟩
  simp [materializedYIndex, Index.get, List.range_succ_eq_map]

lemma yindexSet_arith_roundtrip (m : Array2D) (a d : ℚ) (u : String) (n : Nat)
    (hy0 : m.y0q = some ⟨a, u⟩) (hdy : m.dyq = some ⟨d, u⟩) (h2 : 2 ≤ n) :
    m.yindexSet (some (.idx (materializedYIndex a d u n)))
      = Except.ok { m with y0q := some ⟨a, u⟩, dyq := some ⟨d, u⟩, yindexq := some (materializedYIndex a d u n) } := by
  have hsub : qsub ⟨a + d, u⟩ ⟨a, u⟩ = Except.ok ⟨d, u⟩ := by
    simp [qsub, add_sub_cancel_left]
  have hyset : m.y0Set (some (.quant ⟨a, u⟩))
      = Except.ok { m with y0q := some ⟨a, u⟩ } := by
    simp only [Array2D.y0Set, hy0]
    simp
  simp only [Array2D.yindexSet, mat_get0 a d u n h2, mat_get1 a d u n h2,
    regular_materialized, if_true, bind, Except.bind, hyset, hsub,
    Array2D.dySet, hdy]

/-- C3 (amended): the `yindex` setter performs no length validation at all —
for any matrix with no prior y metadata and any index with at least two
entries (what the setter's `index[1]` read requires), `setIndex` succeeds
and caches the index verbatim, whether or not its length matches the
buffer's column extent. -/
theorem C3_amended_no_length_validation (m : Array2D) (idx : Index)
    (h0 : m.y0q = none) (h1 : m.dyq = none) (h2 : 2 ≤ idx.values.length) :
    ∃ m', m.yindexSet (some (.idx idx)) = Except.ok m'
      ∧ m'.yindexq = some idx := by
  rcases hval : idx.values with _ | ⟨a, tl⟩
  · rw [hval] at h2
    simp at h2
  rcases htl : tl with _ | ⟨b, tl2⟩
  · rw [hval, htl] at h2
    simp at h2
  subst htl
  have hg0 : idx.get 0 = Except.ok ⟨a, idx.unit⟩ := by
    simp [Index.get, hval]
  have hg1 : idx.get 1 = Except.ok ⟨b, idx.unit⟩ := by
    simp [Index.get, hval]
  have hy : m.y0Set (some (.quant ⟨a, idx.unit⟩))
      = Except.ok { m with yindexq := none, y0q := some ⟨a, idx.unit⟩ } := by
    simp only [Array2D.y0Set, h0]
  by_cases hreg : idx.regular
  · simp only [Array2D.yindexSet, hg0, hg1, hreg, if_true, bind, Except.bind,
      hy, qsub, if_pos rfl]
    simp only [Array2D.dySet, h1, bind, Except.bind]
    exact ⟨_, rfl, rfl⟩
  · simp only [Bool.not_eq_true] at hreg
    simp only [Array2D.yindexSet, hg0, hreg, Bool.false_eq_true, if_false,
      bind, Except.bind, hy]
    exact ⟨_, rfl, rfl⟩

/-- Witness for C3's amended theorem: the length-3 index `[0, 1, 2]` is
accepted and cached on the 2-column matrix `exFresh`. -/
theorem C3_amended_witness :
    ∃ m', exFresh.yindexSet (some (.idx ⟨[0, 1, 2], ""⟩)) = Except.ok m'
      ∧ m'.yindexq = some ⟨[0, 1, 2], ""⟩ :=
  C3_amended_no_length_validation exFresh ⟨[0, 1, 2], ""⟩ rfl rfl (by decide)

/-- C5: after an irregular explicit index is set on the y-axis (any matrix,
any index whose `regular` flag is false), `dy` fails with the
`AttributeError` naming the y-axis ("irregular y-axis index"), while `y0`
still succeeds and returns the first element of the index. -/
theorem C5_irregular_step_fails_origin_succeeds (m mres : Array2D)
    (idx : Index) (hirr : idx.regular = false)
    (hset : m.yindexSet (some (.idx idx)) = Except.ok mres) :
    mres.dyGet = Except.error (Err.attributeError
        "This series has an irregular y-axis index, so 'dy' is not well defined")
    ∧ (mres.y0Get).1 = ⟨idx.values.headD 0, idx.unit⟩ := by
  rcases hval : idx.values with _ | ⟨a, tl⟩
  · rw [show idx.regular = true by simp [Index.regular, hval]] at hirr
    cases hirr
  · have hg0 : idx.get 0 = Except.ok ⟨a, idx.unit⟩ := by
      simp [Index.get, hval]
    simp only [Array2D.yindexSet, hg0, hirr, Bool.false_eq_true, if_false,
      bind, Except.bind] at hset
    rcases hy : m.y0Set (some (.quant ⟨a, idx.unit⟩)) with e | m1 <;>
      rw [hy] at hset
    · cases hset
    · injection hset with hset
      subst hset
      have hf := y0Set_quant_ok_fields m m1 ⟨a, idx.unit⟩ hy
      refine ⟨?_, ?_⟩
      · simp [Array2D.dyGet, hirr]
      · simp [Array2D.y0Get, hf.2.2.2.2.2.1, hval]

/-- Witness for C5: the irregular index `[0, 1, 3]` set on `exFresh`
(resulting state `exFreshIrr`). -/
theorem C5_witness :
    exFreshIrr.dyGet = Except.error (Err.attributeError
        "This series has an irregular y-axis index, so 'dy' is not well defined")
    ∧ (exFreshIrr.y0Get).1 = ⟨([0, 1, 3] : List ℚ).headD 0, ""⟩ :=
  C5_irregular_step_fails_origin_succeeds exFresh exFreshIrr ⟨[0, 1, 3], ""⟩
    (by norm_num [Index.regular, regularAux])
    (by norm_num [Array2D.yindexSet, Array2D.y0Set, Index.regular, regularAux,
      Index.get, exFresh, exFreshIrr, bind, Except.bind, List.replicate])

/-- C6 counterexample: the claim's round-trip law fails at extent 1.  On
`exOne` (regular y-axis, `y0 = 3 u`, `dy = 2 u`, column extent 1)
`getIndex` materializes the length-1 index `[3]`, which the (spec-modelled)
`regular` flag vacuously marks regular, so `setIndex` of that very index
reads `index[1]` and the round-trip `setIndex(getIndex())` raises
`IndexError` instead of reproducing the origin, step and values. -/
theorem C6_extent_one_roundtrip_fails :
    exOne.shape1 = 1
    ∧ (do
        let r ← exOne.yindexGet
        (r.2).yindexSet (some (.idx r.1)))
      = Except.error (Err.indexError "index out of bounds") := by
  refine ⟨by decide, ?_⟩
  norm_num [Array2D.yindexGet, Array2D.y0Get, Array2D.dyGet, Array2D.yunit,
    Array2D.shape1, Array2D.yindexSet, Array2D.y0Set, Index.get, Index.regular,
    regularAux, qsub, exOne, bind, Except.bind, List.range_succ,
    List.replicate]

/-- C6 (amended): on a regular y-axis (origin `a`, step `d`, both in unit
`u`, no cached index) with extent ≥ 2, `getIndex` materializes and caches
the index whose `i`-th entry is `a + i*d` for every `i` below the extent,
and the round-trip `setIndex(getIndex())` reproduces the same origin, step
and index values; for extents 0 and 1 the round-trip instead raises
`IndexError` (the setter's `index[1]` read — `index[0]` already at
extent 0), see the counterexample. -/
theorem C6_index_materialization_roundtrip (m : Array2D) (a d : ℚ)
    (u : String) (hy0 : m.y0q = some ⟨a, u⟩) (hdy : m.dyq = some ⟨d, u⟩)
    (hyi : m.yindexq = none) (h2 : 2 ≤ m.shape1) :
    m.yindexGet = Except.ok (materializedYIndex a d u m.shape1,
        { m with yindexq := some (materializedYIndex a d u m.shape1) })
    ∧ (∀ i, i < m.shape1 →
        (materializedYIndex a d u m.shape1).values.get? i
          = some (a + (i : ℚ) * d))
    ∧ ({ m with yindexq := some (materializedYIndex a d u m.shape1) }).yindexSet
        (some (.idx (materializedYIndex a d u m.shape1)))
      = Except.ok { m with y0q := some ⟨a, u⟩, dyq := some ⟨d, u⟩, yindexq := some (materializedYIndex a d u m.shape1) } := by
  refine ⟨yindexGet_materializes m a d u hy0 hdy hyi, ?_, ?_⟩
  · intro i hi
    simp [materializedYIndex, List.getElem?_map, List.getElem?_range, hi]
  · exact yindexSet_arith_roundtrip _ a d u m.shape1 hy0 hdy h2

/-- Witness for C6: `exMat` (2×4, `y0 = 3 u`, `dy = 2 u`). -/
theorem C6_witness :
    exMat.yindexGet = Except.ok (materializedYIndex 3 2 "u" exMat.shape1,
        { exMat with yindexq := some (materializedYIndex 3 2 "u" exMat.shape1) })
    ∧ (∀ i, i < exMat.shape1 →
        (materializedYIndex 3 2 "u" exMat.shape1).values.get? i
          = some (3 + (i : ℚ) * 2))
    ∧ ({ exMat with
          yindexq := some (materializedYIndex 3 2 "u" exMat.shape1) }).yindexSet
        (some (.idx (materializedYIndex 3 2 "u" exMat.shape1)))
      = Except.ok { exMat with y0q := some ⟨3, "u"⟩, dyq := some ⟨2, "u"⟩, yindexq := some (materializedYIndex 3 2 "u" exMat.shape1) } :=
  C6_index_materialization_roundtrip exMat 3 2 "u" rfl rfl rfl (by decide)

/-- C7: on a matrix whose y index is cached (`m.yindexq = some idx`) with
origin `q0` and step `d` in the same unit, setting the origin to a value
`v` (same unit) with a *different* value invalidates the cache — the state
becomes `yindexq = none` and a subsequent `getIndex` materializes from the
new origin `v` — while setting a value *equal* to the cached origin leaves
the cached index intact. -/
theorem C7_origin_mutation_invalidates_cache (m : Array2D) (idx : Index)
    (q0 v : Quantity) (d : ℚ) (hy0 : m.y0q = some q0)
    (hyi : m.yindexq = some idx) (hdy : m.dyq = some ⟨d, q0.unit⟩)
    (hu : v.unit = q0.unit) :
    (v.value ≠ q0.value →
      m.y0Set (some (.quant v))
        = Except.ok { m with yindexq := none, y0q := some v }
      ∧ ({ m with yindexq := none, y0q := some v }).yindexGet
          = Except.ok (materializedYIndex v.value d v.unit m.shape1,
              { m with y0q := some v, yindexq := some (materializedYIndex v.value d v.unit m.shape1) }))
    ∧ (v = q0 →
      m.y0Set (some (.quant v)) = Except.ok { m with y0q := some v }
      ∧ ({ m with y0q := some v }).yindexq = some idx) := by
  constructor
  · intro hne
    have hset : m.y0Set (some (.quant v))
        = Except.ok { m with yindexq := none, y0q := some v } := by
      simp only [Array2D.y0Set, hy0]
      rw [if_pos hu, if_neg hne]
    have hd' : ({ m with yindexq := none, y0q := some v }).dyq
        = some ⟨d, v.unit⟩ := by
      rw [hu]
      exact hdy
    have hmat := yindexGet_materializes
      { m with yindexq := none, y0q := some v } v.value d v.unit rfl hd' rfl
    exact ⟨hset, hmat⟩
  · intro heq
    subst heq
    refine ⟨?_, hyi⟩
    simp only [Array2D.y0Set, hy0]
    simp

/-- Witness for C7: `exMatIdx` (cached index `[3, 5, 7, 9]`, origin `3 u`,
step `2 u`), setting the origin to the different value `7 u`. -/
theorem C7_witness :
    exMatIdx.y0Set (some (.quant ⟨7, "u"⟩))
      = Except.ok { exMatIdx with yindexq := none, y0q := some ⟨7, "u"⟩ }
    ∧ ({ exMatIdx with yindexq := none, y0q := some ⟨7, "u"⟩ }).yindexGet
      = Except.ok (materializedYIndex 7 2 "u" exMatIdx.shape1,
          { exMatIdx with y0q := some ⟨7, "u"⟩, yindexq := some (materializedYIndex 7 2 "u" exMatIdx.shape1) }) :=
  (C7_origin_mutation_invalidates_cache exMatIdx ⟨[3, 5, 7, 9], "u"⟩
    ⟨3, "u"⟩ ⟨7, "u"⟩ 2 rfl rfl rfl rfl).1 (by norm_num)

/-- C8: constructing with both an explicit y index `a :: b :: tl`
(dimensionless) and bare `(y0, dy)` values yields exactly the same object
as constructing with the index alone — the supplied origin/step are
overwritten by the index-derived ones — and that object's `y0` is the
index's first element, its cached index is the supplied index, and its `dy`
is the first difference when the index is regular (deleted otherwise). -/
theorem C8_explicit_index_precedence (data : List (List ℚ)) (u : String)
    (y0v dyv a b : ℚ) (tl : List ℚ) :
    Array2D.new data u none none none (some (.bare y0v)) (some (.bare dyv))
        (some (.idx ⟨a :: b :: tl, ""⟩))
      = Array2D.new data u none none none none none
          (some (.idx ⟨a :: b :: tl, ""⟩))
    ∧ Array2D.new data u none none none none none
          (some (.idx ⟨a :: b :: tl, ""⟩))
      = Except.ok ⟨data, u, none, none, none, some ⟨a, ""⟩,
          if (Index.mk (a :: b :: tl) "").regular then some ⟨b - a, ""⟩ else none,
          some ⟨a :: b :: tl, ""⟩⟩ := by
  have hg0 : (Index.mk (a :: b :: tl) "").get 0 = Except.ok ⟨a, ""⟩ := by
    simp [Index.get]
  have hg1 : (Index.mk (a :: b :: tl) "").get 1 = Except.ok ⟨b, ""⟩ := by
    simp [Index.get]
  have hsub : qsub ⟨b, ""⟩ ⟨a, ""⟩ = Except.ok ⟨b - a, ""⟩ := by
    simp [qsub]
  have hR : Array2D.new data u none none none none none
        (some (.idx ⟨a :: b :: tl, ""⟩))
      = Except.ok ⟨data, u, none, none, none, some ⟨a, ""⟩,
          if (Index.mk (a :: b :: tl) "").regular then some ⟨b - a, ""⟩ else none,
          some ⟨a :: b :: tl, ""⟩⟩ := by
    by_cases hreg : (Index.mk (a :: b :: tl) "").regular = true
    · simp only [Array2D.new, Array2D.yindexSet, hg0, hg1, hsub, hreg,
        Array2D.y0Set, Array2D.dySet, bind, Except.bind, if_true, ite_self]
    · rw [Bool.not_eq_true] at hreg
      simp only [Array2D.new, Array2D.yindexSet, hg0, hreg, Array2D.y0Set,
        Array2D.dySet, bind, Except.bind, Bool.false_eq_true, if_false,
        ite_self]
  have hL : Array2D.new data u none none none (some (.bare y0v))
        (some (.bare dyv)) (some (.idx ⟨a :: b :: tl, ""⟩))
      = Except.ok ⟨data, u, none, none, none, some ⟨a, ""⟩,
          if (Index.mk (a :: b :: tl) "").regular then some ⟨b - a, ""⟩ else none,
          some ⟨a :: b :: tl, ""⟩⟩ := by
    by_cases hreg : (Index.mk (a :: b :: tl) "").regular = true
    · simp only [Array2D.new, pyQuantity, Array2D.yunit, Array2D.yindexSet,
        hg0, hg1, hsub, hreg, Array2D.y0Set, Array2D.dySet, bind, Except.bind,
        if_true, ite_self]
    · rw [Bool.not_eq_true] at hreg
      simp only [Array2D.new, pyQuantity, Array2D.yunit, Array2D.yindexSet,
        hg0, hreg, Array2D.y0Set, Array2D.dySet, bind, Except.bind,
        Bool.false_eq_true, if_false, ite_self]
      simp
  exact ⟨hL.trans hR.symm, hR⟩

/-- C9 (amended): the `dy` setter accepts `None` (clears the field) and
stores a unit-tagged value as given, but a *bare* number is first wrapped as
a dimensionless quantity and then converted to the current axis unit
(`Quantity(value).to(self.yunit)`): it is accepted exactly when the axis
unit is dimensionless, and rejected with a unit-conversion error otherwise —
unlike the origin setter, which tags bare numbers with the axis unit
directly. -/
theorem C9_amended_step_setter (m : Array2D) (q : ℚ) :
    m.dySet none = Except.ok { m with dyq := none }
    ∧ (m.yunit = "" →
        ∃ m', m.dySet (some (.bare q)) = Except.ok m'
          ∧ m'.dyq = some ⟨q, ""⟩)
    ∧ (m.yunit ≠ "" → m.dySet (some (.bare q)) = Except.error Err.unitError)
    ∧ (∀ qv : Quantity, m.dyq = none →
        m.dySet (some (.quant qv))
          = Except.ok { m with yindexq := none, dyq := some qv }) := by
  refine ⟨rfl, ?_, ?_, ?_⟩
  · intro hu
    simp only [Array2D.dySet, Quantity.to, hu, if_pos rfl, bind, Except.bind]
    rcases hd : m.dyq with _ | d0
    · exact ⟨_, rfl, rfl⟩
    · have hdu : d0.unit = "" := by
        unfold Array2D.yunit at hu
        rw [hd] at hu
        exact hu
      simp only [if_true, hdu]
      split
      · exact ⟨_, rfl, rfl⟩
      · exact ⟨_, rfl, rfl⟩
  · intro hu
    simp only [Array2D.dySet, Quantity.to, bind, Except.bind]
    rw [if_neg (fun h => hu h.symm)]
  · intro qv hd
    simp only [Array2D.dySet, hd, bind, Except.bind]

/-- Witness for C9's amended theorem: on `exMeter` (axis unit `"m"`) the
bare step `5` is rejected with the unit-conversion error. -/
theorem C9_amended_witness :
    exMeter.dySet (some (.bare 5)) = Except.error Err.unitError :=
  (C9_amended_step_setter exMeter 5).2.2.1 (by decide)

/-- C10: a 1D slice result is viewed as the column class with the y-axis
origin/step copied into its axis slot exactly when the row component is a
Python `int` (or integral `float`); the numpy integer scalar `npint i` —
not a Python `float`/`int` — yields a row-class vector that keeps the row
axis's own metadata instead. -/
theorem C10_columnclass_only_for_python_scalars (m : Array2D) (i : Nat)
    (row : List ℚ) (hrow : m.data.get? i = some row)
    (x0 dx y0 dy : Quantity)
    (hx0 : m.x0q = some x0) (hdx : m.dxq = some dx)
    (hy0 : m.y0q = some y0) (hdy : m.dyq = some dy)
    (hxi : m.xindexq = none)
    (hux : dy.unit = dx.unit) (hu0 : y0.unit = x0.unit) :
    m.getitem (.single (.pyint i))
      = Except.ok (.vector ⟨row, m.unit, some y0, some dy, none,
          .columnclass⟩, m)
    ∧ m.getitem (.single (.npint i))
      = Except.ok (.vector ⟨row, m.unit, some x0, some dx, none,
          .rowclass⟩, m)
    ∧ m.getitem (.single (.pyfloat (i : ℚ)))
      = Except.ok (.vector ⟨row, m.unit, some y0, some dy, none,
          .columnclass⟩, m) := by
  have hfl : scalarIdx (.pyfloat (i : ℚ)) = Except.ok i := by
    simp [scalarIdx]
  refine ⟨?_, ?_, ?_⟩
  · simp only [Array2D.getitem, Array2D.seriesGetitem, scalarIdx, nthElem,
      hrow, hxi, hx0, hdx, hy0, hdy, PyIdx.isFloatOrInt, Array2D.dyGet,
      Array2D.y0Get, Vec.dxSet, Vec.x0Set, bind, Except.bind]
    simp [ite_self, hux, hu0]
  · simp only [Array2D.getitem, Array2D.seriesGetitem, scalarIdx, nthElem,
      hrow, hxi, hx0, hdx, PyIdx.isFloatOrInt, bind, Except.bind]
    simp
  · simp only [Array2D.getitem, Array2D.seriesGetitem, hfl, nthElem,
      hrow, hxi, hx0, hdx, hy0, hdy, PyIdx.isFloatOrInt, Array2D.dyGet,
      Array2D.y0Get, Vec.dxSet, Vec.x0Set, bind, Except.bind]
    simp [ite_self, hux, hu0]

/-- Witness for C10: `exM` at row 3 — Python `int` gives the column-class
vector carrying `(y0, dy) = (10, 5)`; the numpy scalar gives the row-class
vector keeping `(x0, dx) = (0, 2)`. -/
theorem C10_witness :
    exM.getitem (.single (.pyint 3))
      = Except.ok (.vector ⟨List.replicate 10 0, "", some ⟨10, ""⟩,
          some ⟨5, ""⟩, none, .columnclass⟩, exM)
    ∧ exM.getitem (.single (.npint 3))
      = Except.ok (.vector ⟨List.replicate 10 0, "", some ⟨0, ""⟩,
          some ⟨2, ""⟩, none, .rowclass⟩, exM)
    ∧ exM.getitem (.single (.pyfloat (3 : Nat)))
      = Except.ok (.vector ⟨List.replicate 10 0, "", some ⟨10, ""⟩,
          some ⟨5, ""⟩, none, .columnclass⟩, exM) :=
  C10_columnclass_only_for_python_scalars exM 3 (List.replicate 10 0)
    (by decide) ⟨0, ""⟩ ⟨2, ""⟩ ⟨10, ""⟩ ⟨5, ""⟩ rfl rfl rfl rfl rfl rfl rfl
